import Mathlib

/-!
Verification of the PointCloud2 codec in `ros2_numpy/point_cloud2.py`
(functions `point_cloud2_to_array` and `array_to_point_cloud2`).

Shallow embedding notes.
* A float32 value is represented by its 32-bit pattern (`Float32.bits`),
  since both codec directions only move the raw bytes (`tobytes` /
  `view(np.float32)`); `isNaN` is decided on the bit pattern exactly as
  IEEE-754 binary32 does (exponent all ones, mantissa nonzero), which is
  what `np.isnan` computes.
* Byte buffers are `List Nat` with values < 256 by construction of the
  serializers; deserializers read them little-endian, matching the
  native byte order of the platform the source assumes
  (`sys.byteorder == "little"`).
* Python exceptions become `Except PyError`; numpy raises `ValueError`
  from `reshape`/`view` shape mismatches, and `np.hstack` raises
  `TypeError` when given more than one positional argument (its
  signature is `hstack(tup, ...)`).
* numpy semantics mirrored here:
  - `frombuffer(data, uint8).reshape(-1, k)` fails iff `k = 0` or
    `len data % k ≠ 0` (inferring `-1` against a known product of 0 is
    an error in numpy even for empty buffers);
  - a 2-d slice `a[:, i:j]` clamps `i`, `j` to the row width;
  - `.view(dtype)` on a row-sliced uint8 matrix requires the row byte
    width to be a multiple of the new itemsize, else `ValueError`;
  - `.reshape(-1, 3)` on the float matrix fails iff the number of
    elements is not a multiple of 3;
  - `np.hstack((b1, b2))` on two equal-length python byte strings makes
    a length-2 array of fixed-size byte strings whose raw buffer, read
    through `memoryview(...).cast("B")`, is the concatenation of the
    two strings.
* The `registry` decorators (`converts_to_numpy` / `converts_from_numpy`)
  only register the functions in an external dispatch table and return
  them unchanged; they are plumbing outside the codec and are not
  modelled.  The message header timestamp (wall-clock time) does not
  affect any field a claim mentions and is likewise omitted.
-/

/-- Python / numpy exceptions relevant to the codec. -/
inductive PyError where
  | valueError (msg : String)
  | typeError (msg : String)
deriving DecidableEq, Repr

/-- True exactly on a `TypeError` result. -/
def isTypeError {α : Type} : Except PyError α → Bool
  | .error (.typeError _) => true
  | _ => false

/-- A float32 value, represented by its 32-bit pattern. -/
structure Float32 where
  bits : Nat
deriving DecidableEq, Repr

/-- IEEE-754 binary32 NaN test on the bit pattern: exponent field all
ones, mantissa nonzero.  This is what `np.isnan` decides. -/
def Float32.isNaN (f : Float32) : Bool :=
  (f.bits / 2 ^ 23) % 2 ^ 8 == 255 && f.bits % 2 ^ 23 != 0

/-- `sensor_msgs.msg.PointField`: one field descriptor. -/
structure PointField where
  name : String
  offset : Nat
  datatype : Nat
  count : Nat
deriving DecidableEq, Repr

/-- `PointField.UINT16` datatype tag. -/
def UINT16 : Nat := 4

/-- `PointField.UINT32` datatype tag. -/
def UINT32 : Nat := 6

/-- `PointField.FLOAT32` datatype tag. -/
def FLOAT32 : Nat := 7

/-- `sensor_msgs.msg.PointCloud2`, restricted to the members the codec
reads or writes.  A freshly constructed message has all-zero numeric
members, empty `fields`/`data` and false flags, matching the ROS
message defaults. -/
structure PointCloud2 where
  frame_id : String := ""
  height : Nat := 0
  width : Nat := 0
  fields : List PointField := []
  is_bigendian : Bool := false
  point_step : Nat := 0
  row_step : Nat := 0
  data : List Nat := []
  is_dense : Bool := false
deriving DecidableEq, Repr

/-- The decoded / to-be-encoded columnar point set (the dict the python
code passes around): mandatory `xyz`, optional `rgb` and `intensity`
columns.  `rgb` rows are kept as byte lists (the decoder can produce
clamped rows shorter than 3); `intensity` rows are lists of uint16
values (the uint16 view of a 2-byte slice, one value per row in the
well-formed case). -/
structure NpArray where
  xyz : List (Float32 × Float32 × Float32)
  rgb : Option (List (List Nat)) := none
  intensity : Option (List (List Nat)) := none
deriving DecidableEq, Repr

/-- Fuel-bounded worker for `chunks`.  The fuel (an upper bound on the
number of chunks) makes the recursion structural, so applications on
concrete buffers reduce definitionally. -/
def chunksAux {α : Type} (k : Nat) : Nat → List α → List (List α)
  | _, [] => []
  | 0, _ :: _ => []
  | fuel + 1, a :: rest =>
    if k = 0 then []
    else (a :: rest).take k :: chunksAux k fuel ((a :: rest).drop k)

/-- Split a list into consecutive chunks of `k` elements (the row view
`reshape (-1, k)` produces after its divisibility check passed).  With
`k ≥ 1` the fuel `l.length` never runs out before the list does. -/
def chunks {α : Type} (k : Nat) (l : List α) : List (List α) :=
  chunksAux k l.length l

/-- Read `l` as a little-endian unsigned integer (first byte least
significant). -/
def leNat (l : List Nat) : Nat :=
  l.foldr (fun b acc => b % 256 + 256 * acc) 0

/-- The `n` little-endian bytes of `v` (`tobytes` of an `n`-byte
unsigned value, truncating mod `2^(8n)` as an `astype` cast does). -/
def leBytes (n : Nat) (v : Nat) : List Nat :=
  match n with
  | 0 => []
  | m + 1 => v % 256 :: leBytes m (v / 256)

/-- Group a flat float list into rows of three
(`reshape (-1, 3)` after its divisibility check passed). -/
def group3 {α : Type} : List α → List (α × α × α)
  | a :: b :: c :: rest => (a, b, c) :: group3 rest
  | _ => []

/-- Python slice `row[i : i + n]` on a row of width `ps`: both bounds
clamp to the row width. -/
def pySlice {α : Type} (i n : Nat) (row : List α) : List α :=
  (row.drop i).take n

/-- Width of the python slice `[i : i + n]` of a row of width `ps`. -/
def pySliceWidth (i n ps : Nat) : Nat :=
  min (i + n) ps - min i ps

/-- `point_cloud2_to_array` (decode), lines 9-54 of
`ros2_numpy/point_cloud2.py`, followed step by step:
field-name lookup by *list position* (`field_names.index`), the
`reshape(-1, point_step)` row view, the float32 view of byte columns
0..11, the reversed 3-byte rgb slice at the rgb *index*, and the uint16
view of the 2-byte intensity slice at the intensity *index*.  The
message's `is_bigendian` member is never consulted, exactly as in the
source. -/
def point_cloud2_to_array (msg : PointCloud2) : Except PyError NpArray :=
  let field_names := msg.fields.map (fun f => f.name)
  let rgb_flag := field_names.contains "rgb"
  let rgb_idx := field_names.indexOf "rgb"
  let intensity_flag := field_names.contains "intensity"
  let intensity_idx := field_names.indexOf "intensity"
  -- pc_data = np.frombuffer(msg.data, np.uint8).reshape(-1, msg.point_step)
  if msg.point_step = 0 then
    .error (.valueError "cannot reshape array into shape (-1, 0)")
  else if msg.data.length % msg.point_step ≠ 0 then
    .error (.valueError "cannot reshape array into shape (-1, point_step)")
  else
    let pc_data := chunks msg.point_step msg.data
    -- xyz = pc_data[:, 0:12].view(np.float32).reshape(-1, 3)
    let xyzWidth := pySliceWidth 0 12 msg.point_step
    if xyzWidth % 4 ≠ 0 then
      .error (.valueError "view: last axis not divisible by float32 size")
    else
      let floats :=
        (pc_data.map (fun row =>
          (chunks 4 (pySlice 0 12 row)).map (fun c => Float32.mk (leNat c)))).flatten
      if floats.length % 3 ≠ 0 then
        .error (.valueError "cannot reshape array into shape (-1, 3)")
      else
        let xyz := group3 floats
        -- rgb = pc_data[:, rgb_idx : rgb_idx + 3][:, ::-1]
        let rgb := pc_data.map (fun row => (pySlice rgb_idx 3 row).reverse)
        -- intensity = pc_data[:, intensity_idx : intensity_idx + 2].view(np.uint16)
        if intensity_flag ∧ pySliceWidth intensity_idx 2 msg.point_step % 2 ≠ 0 then
          .error (.valueError "view: last axis not divisible by uint16 size")
        else
          let intensity := pc_data.map (fun row =>
            (chunks 2 (pySlice intensity_idx 2 row)).map leNat)
          if rgb_flag ∧ intensity_flag then
            .ok { xyz := xyz, rgb := some rgb, intensity := some intensity }
          else if rgb_flag then
            .ok { xyz := xyz, rgb := some rgb }
          else if intensity_flag then
            .ok { xyz := xyz, intensity := some intensity }
          else
            .ok { xyz := xyz }

/-- `sys.byteorder != "little"` on the platform the source assumes
(little-endian, see the native `tobytes`/`view` round trips). -/
def sys_is_bigendian : Bool := false

/-- `xyz.astype(np.float32).tobytes()`: every point's three float32
bit patterns, little-endian, concatenated. -/
def xyzBytes (xyz : List (Float32 × Float32 × Float32)) : List Nat :=
  (xyz.map (fun p => leBytes 4 p.1.bits ++ leBytes 4 p.2.1.bits ++ leBytes 4 p.2.2.bits)).flatten

/-- `rgb.astype(np.uint32).tobytes()`: every color triple widened to
three uint32 values (4 little-endian bytes each) and concatenated. -/
def rgbBytesU32 (rgb : List (List Nat)) : List Nat :=
  (rgb.map (fun row => (row.map (leBytes 4)).flatten)).flatten

/-- `memoryview(np.hstack((b1, b2))).cast("B")` for two python byte
strings: numpy builds a length-2 array of fixed-width byte strings,
padding each element with NUL bytes to the larger width; its raw
buffer is the two padded strings in order.  (In the codec both
arguments always have equal length `12 * N`, so no padding occurs.) -/
def hstackBytes2 (b1 b2 : List Nat) : List Nat :=
  let m := max b1.length b2.length
  (b1 ++ List.replicate (m - b1.length) 0) ++ (b2 ++ List.replicate (m - b2.length) 0)

/-- Lines 63-101 of `array_to_point_cloud2` (encode): every message
member assigned before the data serialization step — width, fields,
endianness flag, density flag, point_step and row_step.  These
assignments all execute unconditionally, even on inputs whose later
serialization step raises.  Note the source sets `point_step` only in
the three branches with an optional column present; with `xyz` alone it
keeps the freshly-constructed message's default 0.  The `intensity`
descriptor's offset is the literal 16 in the source, whether or not
`rgb` is present. -/
def encodeMsgMeta (np_array : NpArray) (frame_id : String) : PointCloud2 :=
  let rgb_flag := np_array.rgb.isSome
  let intensity_flag := np_array.intensity.isSome
  let fields :=
    [ PointField.mk "x" 0 FLOAT32 1,
      PointField.mk "y" 4 FLOAT32 1,
      PointField.mk "z" 8 FLOAT32 1 ]
    ++ (if rgb_flag then [PointField.mk "rgb" 12 UINT32 1] else [])
    ++ (if intensity_flag then [PointField.mk "intensity" 16 UINT16 1] else [])
  let point_step :=
    if rgb_flag ∧ intensity_flag then 18
    else if rgb_flag ∧ ¬ intensity_flag then 16
    else if ¬ rgb_flag ∧ intensity_flag then 14
    else 0
  let width := np_array.xyz.length
  { frame_id := frame_id
    height := 1
    width := width
    fields := fields
    is_bigendian := sys_is_bigendian
    point_step := point_step
    row_step := point_step * width
    data := []
    is_dense := !np_array.xyz.any (fun p => p.1.isNaN || p.2.1.isNaN || p.2.2.isNaN) }

/-- Lines 108-145 of `array_to_point_cloud2`: the data serialization.
The two branches with `intensity` present call `np.hstack` with the
byte strings as separate positional arguments — `np.hstack` accepts a
single positional argument (the tuple), so both raise `TypeError`
before any data is produced.  The `rgb`-without-`intensity` branch
passes a proper tuple; the `xyz`-only branch serializes the position
bytes directly.  (`memoryview(...).cast("B")` is the identity on the
underlying bytes; the empty buffer takes the `b""` branch.) -/
def encodeData (np_array : NpArray) : Except PyError (List Nat) :=
  match np_array.rgb, np_array.intensity with
  | some _, some _ =>
      .error (.typeError "hstack() takes 1 positional argument but 3 were given")
  | some rgb, none =>
      .ok (hstackBytes2 (xyzBytes np_array.xyz) (rgbBytesU32 rgb))
  | none, some _ =>
      .error (.typeError "hstack() takes 1 positional argument but 2 were given")
  | none, none =>
      .ok (xyzBytes np_array.xyz)

/-- `array_to_point_cloud2` (encode), lines 57-148: the metadata
assignments followed by the serialization step, whose `TypeError`
(when raised) propagates out before `msg.data` is ever assigned. -/
def array_to_point_cloud2 (np_array : NpArray) (frame_id : String := "base_link") :
    Except PyError PointCloud2 :=
  (encodeData np_array).map (fun d => { encodeMsgMeta np_array frame_id with data := d })

/-- True exactly on an `ok` result. -/
def exceptIsOk {α : Type} : Except PyError α → Bool
  | .ok _ => true
  | .error _ => false

/-- Does any coordinate of any point carry a float32 NaN pattern?
(`np.isnan(xyz).any()`.) -/
def hasNaNxyz (xyz : List (Float32 × Float32 × Float32)) : Bool :=
  xyz.any (fun p => p.1.isNaN || p.2.1.isNaN || p.2.2.isNaN)

/-- The float32 zero pattern. -/
def f32zero : Float32 := ⟨0⟩

/-- A quiet-NaN float32 pattern (`0x7FC00000`). -/
def f32nan : Float32 := ⟨2143289344⟩

/-- A message as the encoder itself would lay it out for `xyz` plus
`rgb`: fields `x@0, y@4, z@8, rgb@12`, `point_step = 16`, one record.
Record bytes: positions 3,4,5 hold 1,2,3 and positions 12,13,14 hold
7,8,9, so reads at the rgb descriptor's list index (3) and at its
declared byte offset (12) are distinguishable. -/
def msgC2 : PointCloud2 :=
  { height := 1
    width := 1
    fields :=
      [ PointField.mk "x" 0 FLOAT32 1,
        PointField.mk "y" 4 FLOAT32 1,
        PointField.mk "z" 8 FLOAT32 1,
        PointField.mk "rgb" 12 UINT32 1 ]
    point_step := 16
    row_step := 16
    data := [0, 0, 0, 1, 2, 3, 0, 0, 0, 0, 0, 0, 7, 8, 9, 0] }

/-- A message whose field list has no `x`, `y` or `z` descriptor at
all, with a well-formed 12-byte buffer. -/
def msgNoXYZ : PointCloud2 :=
  { height := 1
    width := 1
    fields := []
    point_step := 12
    row_step := 12
    data := [0, 0, 0, 0, 0, 0, 0, 0, 0, 0, 0, 0] }

/-- A 5-byte buffer against `point_step = 12`: not a multiple. -/
def msgBad5 : PointCloud2 :=
  { point_step := 12
    data := [0, 0, 0, 0, 0] }

/-- A zero-length buffer with an all-default layout
(`point_step = 0`, no fields). -/
def msgPs0 : PointCloud2 := {}

/-- A zero-length buffer with the layout the encoder emits for plain
`xyz` data, with `point_step` corrected to 12. -/
def msgEmpty12 : PointCloud2 :=
  { fields :=
      [ PointField.mk "x" 0 FLOAT32 1,
        PointField.mk "y" 4 FLOAT32 1,
        PointField.mk "z" 8 FLOAT32 1 ]
    point_step := 12
    data := [] }

/-- One origin point with color triple `(1, 2, 3)` and no intensity. -/
def arrC4 : NpArray :=
  { xyz := [(f32zero, f32zero, f32zero)], rgb := some [[1, 2, 3]] }

/-- One point whose x coordinate is NaN; no optional columns. -/
def arrNaN : NpArray :=
  { xyz := [(f32nan, f32zero, f32zero)] }

/-- One origin point with an intensity column and no rgb. -/
def arrI : NpArray :=
  { xyz := [(f32zero, f32zero, f32zero)], intensity := some [[7]] }

/-- The message the encoder produces for `arrNaN` with frame "f":
`point_step` keeps the constructed message's default 0 (no branch sets
it when both optional columns are absent), and the NaN x coordinate
clears `is_dense`. -/
def msgNaN : PointCloud2 :=
  { frame_id := "f"
    height := 1
    width := 1
    fields :=
      [ PointField.mk "x" 0 FLOAT32 1,
        PointField.mk "y" 4 FLOAT32 1,
        PointField.mk "z" 8 FLOAT32 1 ]
    is_bigendian := false
    point_step := 0
    row_step := 0
    data := [0, 0, 192, 127, 0, 0, 0, 0, 0, 0, 0, 0]
    is_dense := false }

/-- Reshaping an empty buffer yields no rows. -/
theorem chunks_nil {α : Type} (k : Nat) : chunks k ([] : List α) = [] := rfl

/-- C1: the claimed xyz-only round-trip identity never holds on this
code.  The encoder's `point_step` if-chain has no branch for the
xyz-only case, so the emitted message keeps `point_step = 0`; the
decoder's `reshape(-1, point_step)` then raises for every buffer,
including the empty one.  Decoding the encoding of any xyz-only point
set is therefore always an error, never the original point set. -/
theorem c1_xyz_roundtrip_always_fails :
    ∀ (xyz : List (Float32 × Float32 × Float32)) (fid : String),
      (array_to_point_cloud2 ⟨xyz, none, none⟩ fid).bind point_cloud2_to_array
        = .error (.valueError "cannot reshape array into shape (-1, 0)") := by
  intro xyz fid
  rfl

/-- C2: the decoder does not read the rgb channel at the descriptor's
declared byte offset; it reads at the descriptor's *position in the
field list* (`field_names.index`).  On the encoder's own layout
(x, y, z, rgb at offset 12; `point_step = 16`) with record bytes 3,4,5
set to 1,2,3 and bytes 12,13,14 set to 7,8,9, the decoded rgb row is
the reversed slice at index 3, `[3, 2, 1]`, not the reversed slice at
offset 12, `[9, 8, 7]`. -/
theorem c2_rgb_read_at_list_index :
    point_cloud2_to_array msgC2 =
      .ok { xyz := [(⟨16777216⟩, ⟨770⟩, ⟨0⟩)], rgb := some [[3, 2, 1]] } := by
  rfl

/-- C3: the encoder's `point_step` values per optional-column
combination.  The three combinations with an optional column get 16,
14 and 18 as the claim says, but the xyz-only case is covered by no
branch of the if-chain and keeps the freshly constructed message's
default `point_step = 0`, not the claimed 12. -/
theorem c3_point_step_values :
    ∀ (xyz : List (Float32 × Float32 × Float32)) (rgb intens : List (List Nat))
      (fid : String),
      (encodeMsgMeta ⟨xyz, none, none⟩ fid).point_step = 0 ∧
      (encodeMsgMeta ⟨xyz, some rgb, none⟩ fid).point_step = 16 ∧
      (encodeMsgMeta ⟨xyz, none, some intens⟩ fid).point_step = 14 ∧
      (encodeMsgMeta ⟨xyz, some rgb, some intens⟩ fid).point_step = 18 := by
  intro xyz rgb intens fid
  exact ⟨rfl, rfl, rfl, rfl⟩

/-- C4: the rgb round trip fails.  For one point with color (1,2,3)
the encoder emits 24 bytes (the whole 12-byte xyz column followed by
the whole rgb column widened to three uint32 values per point) against
a declared `point_step` of 16, so the decoder's divisibility check
rejects the buffer and no colors are ever recovered. -/
theorem c4_rgb_roundtrip_fails :
    (array_to_point_cloud2 arrC4 "base_link").toOption.map
        (fun m => (m.data.length, m.point_step)) = some (24, 16) ∧
      (array_to_point_cloud2 arrC4 "base_link").bind point_cloud2_to_array
        = .error (.valueError "cannot reshape array into shape (-1, point_step)") := by
  exact ⟨rfl, rfl⟩

/-- C5 counterexample: a message whose field list has no `x`, `y` or
`z` descriptor decodes without any error, contradicting the claim that
a missing required field raises `LayoutError`. -/
theorem c5_counterexample_missing_xyz_not_rejected :
    ((msgNoXYZ.fields.map (fun f => f.name)).contains "x") = false ∧
      point_cloud2_to_array msgNoXYZ =
        .ok { xyz := [(f32zero, f32zero, f32zero)] } := by
  exact ⟨rfl, rfl⟩

/-- C5 amended: the decoder does raise immediately (returning no
partial point set) whenever the buffer length is not an exact multiple
of a positive `point_step`; but it never checks that `x`, `y`, `z`
appear in the descriptor list, so their absence raises nothing. -/
theorem c5_amended_length_check :
    ∀ msg : PointCloud2, 0 < msg.point_step →
      msg.data.length % msg.point_step ≠ 0 →
      point_cloud2_to_array msg =
        .error (.valueError "cannot reshape array into shape (-1, point_step)") := by
  intro msg h1 h2
  unfold point_cloud2_to_array
  rw [if_neg (by omega), if_pos h2]

/-- C5 amended, instantiated: a 5-byte buffer against point_step 12 is
rejected by the reshape check. -/
theorem c5_amended_length_check_witness :
    0 < msgBad5.point_step ∧ msgBad5.data.length % msgBad5.point_step ≠ 0 ∧
      point_cloud2_to_array msgBad5 =
        .error (.valueError "cannot reshape array into shape (-1, point_step)") :=
  ⟨by decide, by decide, c5_amended_length_check msgBad5 (by decide) (by decide)⟩

/-- C6: the encoder sets `is_dense` to true exactly when no coordinate
of any xyz point carries a NaN pattern — both on the metadata it
assigns unconditionally and on any message it actually returns. -/
theorem c6_is_dense_iff_no_nan :
    ∀ (arr : NpArray) (fid : String),
      (encodeMsgMeta arr fid).is_dense = !hasNaNxyz arr.xyz ∧
      ∀ msg : PointCloud2, array_to_point_cloud2 arr fid = .ok msg →
        msg.is_dense = !hasNaNxyz arr.xyz := by
  intro arr fid
  refine ⟨rfl, ?_⟩
  intro msg h
  unfold array_to_point_cloud2 at h
  cases hed : encodeData arr with
  | error e => rw [hed] at h; simp [Except.map] at h
  | ok d =>
    rw [hed] at h
    simp only [Except.map] at h
    cases h
    rfl

/-- C6 instantiated: a point set with a NaN x coordinate encodes with
`is_dense = false`. -/
theorem c6_is_dense_iff_no_nan_witness :
    array_to_point_cloud2 arrNaN "f" = .ok msgNaN ∧ msgNaN.is_dense = false :=
  ⟨by rfl, (c6_is_dense_iff_no_nan arrNaN "f").2 msgNaN (by rfl)⟩

/-- C7 counterexample: decoding a zero-length buffer is *not*
error-free for every layout — with the all-default layout
(`point_step = 0`) the record reshape itself raises, empty buffer or
not. -/
theorem c7_counterexample_zero_point_step :
    msgPs0.data = [] ∧
      point_cloud2_to_array msgPs0 =
        .error (.valueError "cannot reshape array into shape (-1, 0)") :=
  ⟨rfl, rfl⟩

/-- C7 amended: encoding the empty point set raises nothing and yields
a zero-length buffer with `width = 0` and `row_step = 0`; and decoding
a zero-length buffer raises nothing and returns a zero-length xyz
column for every layout whose `point_step` is at least 12 and whose
intensity slice (when an intensity field is present) has even width. -/
theorem c7_empty_inputs :
    ((array_to_point_cloud2 ⟨[], none, none⟩ "base_link").toOption.map
        (fun m => (m.data, m.width, m.row_step)) = some ([], 0, 0)) ∧
      ∀ msg : PointCloud2, msg.data = [] → 12 ≤ msg.point_step →
        ((msg.fields.map (fun f => f.name)).contains "intensity" = true →
          pySliceWidth ((msg.fields.map (fun f => f.name)).indexOf "intensity") 2
              msg.point_step % 2 = 0) →
        (point_cloud2_to_array msg).toOption.map NpArray.xyz = some [] := by
  refine ⟨rfl, ?_⟩
  intro msg hdata hps hint
  have hps0 : ¬ msg.point_step = 0 := by omega
  have hw : pySliceWidth 0 12 msg.point_step = 12 := by
    simp only [pySliceWidth]
    omega
  simp only [point_cloud2_to_array, hdata]
  rw [if_neg hps0]
  rw [if_neg (show ¬(List.length ([] : List Nat) % msg.point_step ≠ 0) by simp)]
  rw [chunks_nil, hw]
  rw [if_neg (show ¬((12 : Nat) % 4 ≠ 0) by decide)]
  rw [List.map_nil, List.flatten_nil, List.length_nil]
  rw [if_neg (show ¬((0 : Nat) % 3 ≠ 0) by decide)]
  have hno : ¬((msg.fields.map (fun f => f.name)).contains "intensity" = true ∧
      pySliceWidth ((msg.fields.map (fun f => f.name)).indexOf "intensity") 2
          msg.point_step % 2 ≠ 0) := by
    rintro ⟨hc, hbad⟩
    exact hbad (hint hc)
  rw [if_neg hno]
  split
  · rfl
  · split
    · rfl
    · split
      · rfl
      · rfl

/-- C7 amended, instantiated: the encoder's own xyz layout with
`point_step` 12 and an empty buffer decodes to an empty xyz column. -/
theorem c7_empty_inputs_witness :
    msgEmpty12.data = [] ∧ 12 ≤ msgEmpty12.point_step ∧
      (point_cloud2_to_array msgEmpty12).toOption.map NpArray.xyz = some [] :=
  ⟨rfl, by decide, c7_empty_inputs.2 msgEmpty12 rfl (by decide) (by decide)⟩

/-- C8: the field descriptor list the encoder builds.  `x`, `y`, `z`
at offsets 0, 4, 8 and `rgb` at 12 match the claim, but the
`intensity` descriptor's offset is the literal 16 in both combinations
— including xyz+intensity without rgb, where the claim requires 12
(16 does not even fit inside that layout's `point_step` of 14). -/
theorem c8_intensity_offset_always_16 :
    ∀ (xyz : List (Float32 × Float32 × Float32)) (rgb intens : List (List Nat))
      (fid : String),
      (encodeMsgMeta ⟨xyz, none, some intens⟩ fid).fields =
        [ PointField.mk "x" 0 FLOAT32 1, PointField.mk "y" 4 FLOAT32 1,
          PointField.mk "z" 8 FLOAT32 1, PointField.mk "intensity" 16 UINT16 1 ] ∧
      (encodeMsgMeta ⟨xyz, some rgb, some intens⟩ fid).fields =
        [ PointField.mk "x" 0 FLOAT32 1, PointField.mk "y" 4 FLOAT32 1,
          PointField.mk "z" 8 FLOAT32 1, PointField.mk "rgb" 12 UINT32 1,
          PointField.mk "intensity" 16 UINT16 1 ] := by
  intro xyz rgb intens fid
  exact ⟨rfl, rfl⟩

/-- C9: the decoder never reads the message's `is_bigendian` member,
so its result is identical under both endianness flags (intensity
bytes in particular are always combined little-endian). -/
theorem c9_decode_ignores_endianness :
    ∀ (msg : PointCloud2) (b : Bool),
      point_cloud2_to_array { msg with is_bigendian := b } =
        point_cloud2_to_array msg := by
  intro msg b
  cases msg
  rfl

/-- C10: whenever the point set has an intensity column — with or
without rgb — the serialization step calls `np.hstack` with the
per-column byte strings as separate positional arguments, so the
encoder raises `TypeError` and no message data is produced. -/
theorem c10_intensity_always_type_error :
    ∀ (arr : NpArray) (fid : String), arr.intensity.isSome = true →
      isTypeError (array_to_point_cloud2 arr fid) = true := by
  intro arr fid h
  rcases arr with ⟨xyz, rgb, intens⟩
  cases intens with
  | none => simp [Option.isSome] at h
  | some i =>
    cases rgb with
    | none => rfl
    | some r => rfl

/-- C10 instantiated: one point with an intensity column makes the
encoder raise `TypeError`. -/
theorem c10_intensity_always_type_error_witness :
    arrI.intensity.isSome = true ∧
      isTypeError (array_to_point_cloud2 arrI "base_link") = true :=
  ⟨rfl, c10_intensity_always_type_error arrI "base_link" rfl⟩
